import Mathlib

/-!
# hideproc: hidden-identifier registry, enumeration filter and hook engine

A shallow embedding of `src/main.c`.  The kernel list `hidden_proc` is a
`List Int` in list order (head first, `list_add_tail` appends), `pid_t` and `int`
values are integers, and every C function that touches the global state is a
function from the state to a return code and a new state.  Host (kernel)
services the module calls but does not define are fields of `Host`.
-/

namespace Hideproc

/-! ## Constants -/

/-- The only member of `enum RETURN_CODE`. -/
def SUCCESS : Int := 0

/-- Linux errno `ENOENT`. -/
def ENOENT : Int := 2

/-- Linux errno `ESRCH`. -/
def ESRCH : Int := 3

/-- Linux errno `EAGAIN`. -/
def EAGAIN : Int := 11

/-- Linux errno `ENOMEM`. -/
def ENOMEM : Int := 12

/-- Least value of a 32-bit `int`. -/
def INT_MIN : Int := -2147483648

/-- Greatest value of a 32-bit `int`. -/
def INT_MAX : Int := 2147483647

/-- Two's-complement wrap of an integer into the 32-bit `int` range (the kernel is
built with wrapping signed arithmetic). -/
def wrap32 (x : Int) : Int := (x + 2147483648) % 4294967296 - 2147483648

/-! ## Host services and module state -/

/-- Kernel services used by the registry code.  `kmalloc_ok n` is the outcome of the
`n`-th call of `kmalloc` (true: a node is returned), the other three fields are the
process-table calls made by `get_parent_pid`; handles of `struct pid` and
`struct task_struct` are natural numbers. -/
structure Host where
  kmalloc_ok : Nat → Bool
  find_get_pid : Int → Option Nat
  get_pid_task : Nat → Option Nat
  real_parent_vnr : Nat → Int

/-- Global registry state: `hidden_proc` is the list `LIST_HEAD(hidden_proc)`; the three
counters record how many times `kmalloc`, `kfree` and `get_parent_pid` have run. -/
structure State where
  hidden_proc : List Int
  kmalloc_calls : Nat
  kfree_calls : Nat
  parent_lookups : Nat
deriving DecidableEq, Repr

/-! ## Registry operations -/

/-- Source `is_hidden_proc`: walk the list, true at the first node whose id equals `pid`. -/
def is_hidden_proc (pid : Int) : List Int → Bool
  | [] => false
  | id :: rest => if id = pid then true else is_hidden_proc pid rest

/-- Source `do_hide_process`: allocate a node, store `pid`, `list_add_tail`. -/
def do_hide_process (h : Host) (pid : Int) (s : State) : Int × State :=
  if h.kmalloc_ok s.kmalloc_calls then
    (SUCCESS, { s with hidden_proc := s.hidden_proc ++ [pid],
                       kmalloc_calls := s.kmalloc_calls + 1 })
  else
    (-ENOMEM, { s with kmalloc_calls := s.kmalloc_calls + 1 })

/-- Source `get_parent_pid`: `ppid` starts at 0 and is only assigned when both
`find_get_pid` and `get_pid_task` succeed; 0 is the not-found result. -/
def get_parent_pid (h : Host) (vnr : Int) : Int :=
  match h.find_get_pid vnr with
  | none => 0
  | some pid =>
    match h.get_pid_task pid with
    | none => 0
    | some p => h.real_parent_vnr p

/-- Bookkeeping for one call of `get_parent_pid`. -/
def note_lookup (s : State) : State :=
  { s with parent_lookups := s.parent_lookups + 1 }

/-- Source `hide_process` (lines 153-172). -/
def hide_process (h : Host) (vnr : Int) (s : State) : Int × State :=
  if vnr = 0 then (-EAGAIN, s)
  else
    let r1 := do_hide_process h vnr s
    if r1.1 ≠ 0 then r1
    else
      let ppid := get_parent_pid h vnr
      let s2 := note_lookup r1.2
      if ppid = 0 then (-ESRCH, s2)
      else do_hide_process h ppid s2

/-- Loop of `do_unhide_process` over the list: every node whose id equals `pid` is
unlinked and freed; the result is the remaining list and the number of nodes freed. -/
def unhide_walk (pid : Int) : List Int → List Int × Nat
  | [] => ([], 0)
  | id :: rest =>
    let r := unhide_walk pid rest
    if id = pid then (r.1, r.2 + 1) else (id :: r.1, r.2)

/-- Source `do_unhide_process` (lines 183-193); it always returns `SUCCESS`. -/
def do_unhide_process (pid : Int) (s : State) : Int × State :=
  let r := unhide_walk pid s.hidden_proc
  (SUCCESS, { s with hidden_proc := r.1, kfree_calls := s.kfree_calls + r.2 })

/-- Source `unhide_process` (lines 195-207). -/
def unhide_process (h : Host) (pid : Int) (s : State) : Int × State :=
  let r1 := do_unhide_process pid s
  if r1.1 ≠ 0 then r1
  else
    let ppid := get_parent_pid h pid
    let s2 := note_lookup r1.2
    if ppid = 0 then (-ESRCH, s2)
    else do_unhide_process ppid s2

/-- Source `release_hide_list`: every node is unlinked and freed. -/
def release_hide_list (s : State) : State :=
  { s with hidden_proc := [], kfree_calls := s.kfree_calls + s.hidden_proc.length }

/-! ## Enumeration filter -/

/-- The host primitive `find_ge_pid` reached through the pointer `real_find_ge_pid`
(kernel code, not part of the module): the least identifier `≥ nr` among the finitely
many existing identifiers `existing`, `none` being the NULL result. -/
def real_find_ge_pid : List Int → Int → Option Int
  | [], _ => none
  | x :: xs, nr =>
    match real_find_ge_pid xs nr with
    | none => if nr ≤ x then some x else none
    | some b => if nr ≤ x ∧ x < b then some x else some b

/-- The `while` loop of `hook_find_ge_pid`, with `fuel` bounding the number of
iterations; the outer `none` means the fuel ran out before the loop ended. -/
def hook_loop (existing registry : List Int) : Nat → Option Int → Option (Option Int)
  | _, none => some none
  | 0, some p => if is_hidden_proc p registry then none else some (some p)
  | fuel + 1, some p =>
    if is_hidden_proc p registry then
      hook_loop existing registry fuel (real_find_ge_pid existing (wrap32 (p + 1)))
    else some (some p)

/-- Source `hook_find_ge_pid` (lines 99-105); a `struct pid` is identified with its number. -/
def hook_find_ge_pid (fuel : Nat) (existing registry : List Int) (nr : Int) :
    Option (Option Int) :=
  hook_loop existing registry fuel (real_find_ge_pid existing nr)

/-! ## Interception engine -/

/-- Saved register state handed to the ftrace callback: the instruction pointer `ip`
and everything else (`rest`), whose layout the module never looks at. -/
structure pt_regs (ρ : Type) where
  ip : Nat
  rest : ρ

/-- Flags the module sets on its `ftrace_ops`. -/
inductive ftrace_flag where
  | SAVE_REGS
  | RECURSION_SAFE
  | IPMODIFY
deriving DecidableEq, Repr

/-- Source `struct ftrace_hook`; `ops_thunk` records that `ops.func` is `hook_ftrace_thunk`.
The slot that `orig` points to is the module global `real_find_ge_pid`. -/
structure ftrace_hook where
  name : String
  func : Nat
  address : Nat
  ops_thunk : Bool
  ops_flags : List ftrace_flag

/-- Source `hook_ftrace_thunk`: `within_module` is the host predicate
`within_module(addr, THIS_MODULE)`. -/
def hook_ftrace_thunk {ρ : Type} (within_module : Nat → Bool) (hook : ftrace_hook)
    (_ip parent_ip : Nat) (regs : pt_regs ρ) : pt_regs ρ :=
  if !within_module parent_ip then { regs with ip := hook.func } else regs

/-- Host outcomes seen by module load and unload: the symbol table, and the error code
(0 on success) each kernel call returns.  `ftrace_set_filter_ip remove` is the result of
`ftrace_set_filter_ip(ops, address, remove, 0)`; `class_create` and `device_create` hold
the `PTR_ERR` of an error pointer, or 0 for a valid pointer. -/
structure Kernel where
  kallsyms_lookup_name : String → Nat
  ftrace_set_filter_ip : Bool → Int
  register_ftrace_function : Int
  unregister_ftrace_function : Int
  alloc_chrdev_region : Int
  class_create : Int
  cdev_add : Int
  device_create : Int

/-- Everything the module owns: the hook descriptor, the slot `real_find_ge_pid`
(0 is NULL), whether the hooked address is in the ftrace filter (`filter_ip`), whether
the redirect is registered (`registered`), which transport objects exist, and the
registry state. -/
structure Module where
  hook : ftrace_hook
  real_find_ge_pid : Nat
  filter_ip : Bool
  registered : Bool
  chrdev_region : Bool
  class_created : Bool
  cdev_added : Bool
  device_created : Bool
  reg : State

/-- Source `hook_resolve_addr` (lines 23-32). -/
def hook_resolve_addr (k : Kernel) (m : Module) : Int × Module :=
  let addr := k.kallsyms_lookup_name m.hook.name
  let m1 := { m with hook := { m.hook with address := addr } }
  if addr = 0 then (-ENOENT, m1)
  else (0, { m1 with real_find_ge_pid := addr })

/-- Source `hook_install` (lines 44-67). -/
def hook_install (k : Kernel) (m : Module) : Int × Module :=
  let r := hook_resolve_addr k m
  if r.1 ≠ 0 then r
  else
    let m1 := { r.2 with hook := { r.2.hook with
      ops_thunk := true,
      ops_flags := [ftrace_flag.SAVE_REGS, ftrace_flag.RECURSION_SAFE,
                    ftrace_flag.IPMODIFY] } }
    let e1 := k.ftrace_set_filter_ip false
    if e1 ≠ 0 then (e1, m1)
    else
      let m2 := { m1 with filter_ip := true }
      let e2 := k.register_ftrace_function
      if e2 ≠ 0 then
        (e2, if k.ftrace_set_filter_ip true = 0 then { m2 with filter_ip := false } else m2)
      else (0, { m2 with registered := true })

/-- Source `hook_remove`: both steps run whatever the first one returns. -/
def hook_remove (k : Kernel) (m : Module) : Module :=
  let m1 := if k.unregister_ftrace_function = 0 then { m with registered := false } else m
  if k.ftrace_set_filter_ip true = 0 then { m1 with filter_ip := false } else m1

/-- Source `init_hook`: calls `hook_install` and drops its return value. -/
def init_hook (k : Kernel) (m : Module) : Module :=
  (hook_install k m).2

/-- Source `_hideproc_init`, with the `goto` unwinding written out. -/
def _hideproc_init (k : Kernel) (m : Module) : Int × Module :=
  if k.alloc_chrdev_region ≠ 0 then (k.alloc_chrdev_region, m)
  else
    let m1 := { m with chrdev_region := true }
    if k.class_create ≠ 0 then
      (k.class_create, { m1 with chrdev_region := false })
    else
      let m2 := { m1 with class_created := true }
      if k.cdev_add ≠ 0 then
        (k.cdev_add, { m2 with class_created := false, chrdev_region := false })
      else
        let m3 := { m2 with cdev_added := true }
        if k.device_create ≠ 0 then
          (k.device_create,
            { m3 with cdev_added := false, class_created := false, chrdev_region := false })
        else
          let m4 := { m3 with device_created := true }
          (0, init_hook k m4)

/-- The statements of `_hideproc_exit`, in program order. -/
def _hideproc_exit_steps (k : Kernel) : List (Module → Module) :=
  [ fun m => { m with reg := release_hide_list m.reg },
    hook_remove k,
    fun m => { m with device_created := false },
    fun m => { m with cdev_added := false },
    fun m => { m with class_created := false },
    fun m => { m with chrdev_region := false } ]

/-- States passed through while running a list of statements: the state before the
first statement, then the state after each one. -/
def run_trace : List (Module → Module) → Module → List Module
  | [], m => [m]
  | f :: fs, m => m :: run_trace fs (f m)

/-- Source `_hideproc_exit` (lines 333-343). -/
def _hideproc_exit (k : Kernel) (m : Module) : Module :=
  (_hideproc_exit_steps k).foldl (fun acc f => f acc) m

/-! ## Control-channel read formatting -/

/-- The format string `OUTPUT_BUFFER_FORMAT`, character by character. -/
def OUTPUT_BUFFER_FORMAT : List Char := ['p', 'i', 'd', ':', ' ', '%', 'd', '\n']

/-- Value of `sizeof` on a string literal: its characters and the terminating NUL. -/
def sizeof_str (lit : List Char) : Nat := lit.length + 1

/-- The buffer size `MAX_MESSAGE_SIZE`. -/
def MAX_MESSAGE_SIZE : Nat := sizeof_str OUTPUT_BUFFER_FORMAT + 4

/-- Decimal digits of a natural number, most significant first. -/
def dec_digits : Nat → Nat → List Char
  | 0, _ => []
  | fuel + 1, n =>
    if n < 10 then [Nat.digitChar n]
    else dec_digits fuel (n / 10) ++ [Nat.digitChar (n % 10)]

/-- Text `%d` produces for an `int`. -/
def fmt_d (v : Int) : List Char :=
  if v < 0 then '-' :: dec_digits (v.natAbs + 1) v.natAbs
  else dec_digits (v.natAbs + 1) v.natAbs

/-- Result of `sprintf(message, fmt, v)` for a format with one `%d` conversion: the characters
stored before the terminating NUL. -/
def sprintf_d : List Char → Int → List Char
  | [], _ => []
  | '%' :: 'd' :: rest, v => fmt_d v ++ rest
  | c :: rest, v => c :: sprintf_d rest v

/-- Bytes `sprintf` stores into `message` for one registry entry in `device_read`:
the formatted text and its NUL. -/
def message_bytes (id : Int) : Nat :=
  (sprintf_d OUTPUT_BUFFER_FORMAT id).length + 1

/-! ## Specification of the filtered enumeration -/

/-- A host in which process 50 exists with parent 10, no other process resolves, and
every allocation succeeds. -/
def host50 : Host where
  kmalloc_ok := fun _ => true
  find_get_pid := fun v => if v = 50 then some 1 else none
  get_pid_task := fun _ => some 7
  real_parent_vnr := fun _ => 10

/-- A host in which no identifier resolves and every allocation succeeds. -/
def host_empty : Host where
  kmalloc_ok := fun _ => true
  find_get_pid := fun _ => none
  get_pid_task := fun _ => none
  real_parent_vnr := fun _ => 0

/-- A registry state holding the given list, with all counters at zero. -/
def state_of (l : List Int) : State :=
  { hidden_proc := l, kmalloc_calls := 0, kfree_calls := 0, parent_lookups := 0 }

/-- The module's descriptor before load: `HOOK("find_ge_pid", hook_find_ge_pid,
&real_find_ge_pid)`, with the replacement at address 4096. -/
def hook_initial : ftrace_hook where
  name := "find_ge_pid"
  func := 4096
  address := 0
  ops_thunk := false
  ops_flags := []

/-- The module before `_hideproc_init`: nothing resolved, installed or created. -/
def module_unloaded : Module where
  hook := hook_initial
  real_find_ge_pid := 0
  filter_ip := false
  registered := false
  chrdev_region := false
  class_created := false
  cdev_added := false
  device_created := false
  reg := state_of []

/-- The descriptor after a successful `hook_install` with the symbol at address 8192. -/
def hook_installed : ftrace_hook where
  name := "find_ge_pid"
  func := 4096
  address := 8192
  ops_thunk := true
  ops_flags := [ftrace_flag.SAVE_REGS, ftrace_flag.RECURSION_SAFE, ftrace_flag.IPMODIFY]

/-- A loaded module with the redirect active (symbol at address 8192) and the registry
`[50, 10]`. -/
def module_loaded : Module where
  hook := hook_installed
  real_find_ge_pid := 8192
  filter_ip := true
  registered := true
  chrdev_region := true
  class_created := true
  cdev_added := true
  device_created := true
  reg := state_of [50, 10]

/-- A kernel in which every call succeeds but no symbol name resolves. -/
def kernel_unresolved : Kernel where
  kallsyms_lookup_name := fun _ => 0
  ftrace_set_filter_ip := fun _ => 0
  register_ftrace_function := 0
  unregister_ftrace_function := 0
  alloc_chrdev_region := 0
  class_create := 0
  cdev_add := 0
  device_create := 0

/-- A kernel in which symbols resolve to address 8192 and every call succeeds except
`register_ftrace_function`, which returns `-16` (`-EBUSY`). -/
def kernel_rejects : Kernel where
  kallsyms_lookup_name := fun _ => 8192
  ftrace_set_filter_ip := fun _ => 0
  register_ftrace_function := -16
  unregister_ftrace_function := 0
  alloc_chrdev_region := 0
  class_create := 0
  cdev_add := 0
  device_create := 0

/-- A kernel in which symbols resolve to address 8192 and every call succeeds. -/
def kernel_ok : Kernel where
  kallsyms_lookup_name := fun _ => 8192
  ftrace_set_filter_ip := fun _ => 0
  register_ftrace_function := 0
  unregister_ftrace_function := 0
  alloc_chrdev_region := 0
  class_create := 0
  cdev_add := 0
  device_create := 0

/-- A module occupying the addresses 1000 to 1999. -/
def within_sample (a : Nat) : Bool := decide (1000 ≤ a ∧ a < 2000)

/-! ## Registry lemmas -/

theorem is_hidden_proc_iff (pid : Int) (l : List Int) :
    is_hidden_proc pid l = true ↔ pid ∈ l := by
  induction l with
  | nil => simp [is_hidden_proc]
  | cons a t ih =>
    by_cases hq : a = pid
    · simp [is_hidden_proc, hq]
    · have hq2 : ¬ pid = a := fun e => hq e.symm
      simp [is_hidden_proc, hq, hq2, ih]

theorem is_hidden_proc_false_iff (pid : Int) (l : List Int) :
    is_hidden_proc pid l = false ↔ pid ∉ l := by
  rw [← is_hidden_proc_iff]; simp

theorem unhide_walk_fst (pid : Int) (l : List Int) :
    (unhide_walk pid l).1 = l.filter (fun x => decide (x ≠ pid)) := by
  induction l with
  | nil => simp [unhide_walk]
  | cons a t ih =>
    by_cases hq : a = pid
    · simp [unhide_walk, hq, ih]
    · simp [unhide_walk, hq, ih]

theorem unhide_walk_of_not_mem (pid : Int) (l : List Int) (hn : pid ∉ l) :
    (unhide_walk pid l).1 = l := by
  rw [unhide_walk_fst, List.filter_eq_self]
  intro a ha
  have : a ≠ pid := fun e => hn (e ▸ ha)
  simpa using this

theorem do_unhide_process_list (pid : Int) (s : State) :
    (do_unhide_process pid s).2.hidden_proc = s.hidden_proc.filter (fun x => decide (x ≠ pid)) := by
  simp [do_unhide_process, unhide_walk_fst]

theorem unhide_process_list (h : Host) (id : Int) (s : State) :
    (unhide_process h id s).2.hidden_proc =
      if get_parent_pid h id = 0 then s.hidden_proc.filter (fun x => decide (x ≠ id))
      else (s.hidden_proc.filter (fun x => decide (x ≠ id))).filter
        (fun x => decide (x ≠ get_parent_pid h id)) := by
  by_cases hp : get_parent_pid h id = 0
  · simp [unhide_process, do_unhide_process, SUCCESS, note_lookup, hp, unhide_walk_fst]
  · simp [unhide_process, do_unhide_process, SUCCESS, note_lookup, hp, unhide_walk_fst]

theorem unhide_process_code (h : Host) (id : Int) (s : State) :
    (unhide_process h id s).1 = if get_parent_pid h id = 0 then -ESRCH else SUCCESS := by
  by_cases hp : get_parent_pid h id = 0
  · simp [unhide_process, do_unhide_process, SUCCESS, hp]
  · simp [unhide_process, do_unhide_process, SUCCESS, hp]

/-! ## Hiding and unhiding -/

/-- C2: for a non-zero identifier `N` whose node allocation succeeds, when the parent
lookup returns a parent `P` (non-zero) and its node allocation succeeds too,
`hide_process` returns `SUCCESS` and the registry
becomes the old one followed by `N` then `P`; when the lookup returns not-found (0) it
returns `-ESRCH` and the registry becomes the old one followed by `N` alone, so `N` is
hidden. -/
theorem hide_process_appends (h : Host) (N : Int) (s : State) (hN : N ≠ 0)
    (ha1 : h.kmalloc_ok s.kmalloc_calls = true) :
    (get_parent_pid h N ≠ 0 → h.kmalloc_ok (s.kmalloc_calls + 1) = true →
      (hide_process h N s).1 = SUCCESS ∧
      (hide_process h N s).2.hidden_proc = s.hidden_proc ++ [N, get_parent_pid h N]) ∧
    (get_parent_pid h N = 0 →
      (hide_process h N s).1 = -ESRCH ∧
      (hide_process h N s).2.hidden_proc = s.hidden_proc ++ [N] ∧
      is_hidden_proc N (hide_process h N s).2.hidden_proc = true) := by
  constructor
  · intro hp ha2
    simp [hide_process, do_hide_process, note_lookup, SUCCESS, hN, ha1, ha2, hp]
  · intro hp
    have hl : (hide_process h N s).2.hidden_proc = s.hidden_proc ++ [N] := by
      simp [hide_process, do_hide_process, note_lookup, SUCCESS, hN, ha1, hp]
    refine ⟨?_, hl, ?_⟩
    · simp [hide_process, do_hide_process, note_lookup, SUCCESS, hN, ha1, hp]
    · rw [hl, is_hidden_proc_iff]; simp

/-- Witness for C2: hiding 50, whose parent is 10, in the empty registry gives the
registry `[50, 10]` and `SUCCESS`. -/
theorem hide_process_appends_witness :
    (hide_process host50 50 (state_of [])).1 = SUCCESS ∧
    (hide_process host50 50 (state_of [])).2.hidden_proc = [] ++ [50, get_parent_pid host50 50] :=
  (hide_process_appends host50 50 (state_of []) (by decide) rfl).1 (by decide) rfl

/-- C5: after `unhide_process id` the registry is the old one with every entry equal to
`id` removed and, when the parent lookup returns a parent, every entry equal to the parent
removed too; the remaining entries are a sublist of the old registry (same relative
order), and `id` is no longer hidden, however often it occurred. -/
theorem unhide_process_removes_all (h : Host) (id : Int) (s : State) :
    (unhide_process h id s).2.hidden_proc =
      (if get_parent_pid h id = 0 then s.hidden_proc.filter (fun x => decide (x ≠ id))
       else (s.hidden_proc.filter (fun x => decide (x ≠ id))).filter
         (fun x => decide (x ≠ get_parent_pid h id))) ∧
    List.Sublist (unhide_process h id s).2.hidden_proc s.hidden_proc ∧
    is_hidden_proc id (unhide_process h id s).2.hidden_proc = false := by
  have hl := unhide_process_list h id s
  refine ⟨hl, ?_, ?_⟩
  · rw [hl]
    split
    · exact List.filter_sublist _
    · exact (List.filter_sublist _).trans (List.filter_sublist _)
  · rw [is_hidden_proc_false_iff, hl]
    split <;> simp [List.mem_filter]

/-- C6: `hide_process 0` returns `-EAGAIN`, which is non-zero, and the whole state is
unchanged: the registry is the same, no node is allocated and no parent lookup is made. -/
theorem hide_process_zero (h : Host) (s : State) :
    (hide_process h 0 s).1 = -EAGAIN ∧ (hide_process h 0 s).1 ≠ 0 ∧
    (hide_process h 0 s).2 = s ∧
    (hide_process h 0 s).2.hidden_proc = s.hidden_proc ∧
    (hide_process h 0 s).2.kmalloc_calls = s.kmalloc_calls ∧
    (hide_process h 0 s).2.parent_lookups = s.parent_lookups := by
  simp [hide_process, EAGAIN]

/-- C4, as stated, fails: 50 has no entry in the registry `[10]`, its parent is 10, and
`unhide_process 50` returns `SUCCESS` and leaves the registry empty, not `[10]`. -/
theorem unhide_absent_not_noop :
    ¬ (50 : Int) ∈ (state_of [10]).hidden_proc ∧
    (unhide_process host50 50 (state_of [10])).1 = SUCCESS ∧
    (unhide_process host50 50 (state_of [10])).2.hidden_proc = [] ∧
    (unhide_process host50 50 (state_of [10])).2.hidden_proc ≠ (state_of [10]).hidden_proc := by
  decide

/-- C4, amended: for an identifier `id` with no entry in the registry, `unhide_process`
returns `SUCCESS` or `-ESRCH`, and the registry afterwards is the old one with the entries
equal to the parent of `id` removed (nothing removed when the lookup returns not-found);
it is exactly the old registry when the lookup returns not-found or the parent has no
entry. -/
theorem unhide_absent (h : Host) (id : Int) (s : State) (hid : id ∉ s.hidden_proc) :
    ((unhide_process h id s).1 = SUCCESS ∨ (unhide_process h id s).1 = -ESRCH) ∧
    (unhide_process h id s).2.hidden_proc =
      (if get_parent_pid h id = 0 then s.hidden_proc
       else s.hidden_proc.filter (fun x => decide (x ≠ get_parent_pid h id))) ∧
    ((get_parent_pid h id = 0 ∨ get_parent_pid h id ∉ s.hidden_proc) →
      (unhide_process h id s).2.hidden_proc = s.hidden_proc) := by
  have hself : s.hidden_proc.filter (fun x => decide (x ≠ id)) = s.hidden_proc := by
    rw [← unhide_walk_fst]; exact unhide_walk_of_not_mem id _ hid
  have hl := unhide_process_list h id s
  rw [hself] at hl
  refine ⟨?_, hl, ?_⟩
  · rw [unhide_process_code]
    split
    · exact Or.inr rfl
    · exact Or.inl rfl
  · intro hp
    rw [hl]
    split
    · rfl
    · rename_i hne
      have hnm : get_parent_pid h id ∉ s.hidden_proc := hp.resolve_left hne
      rw [← unhide_walk_fst]; exact unhide_walk_of_not_mem _ _ hnm

/-- Witness for C4 amended: 7 has no entry in `[10, 50]` and does not resolve, so
`unhide_process 7` leaves the registry as it was. -/
theorem unhide_absent_witness :
    (unhide_process host_empty 7 (state_of [10, 50])).2.hidden_proc =
      (state_of [10, 50]).hidden_proc :=
  (unhide_absent host_empty 7 (state_of [10, 50]) (by decide)).2.2 (Or.inl rfl)

/-! ## Round trip -/

theorem do_hide_process_list (h : Host) (pid : Int) (s : State) :
    (do_hide_process h pid s).2.hidden_proc =
      if h.kmalloc_ok s.kmalloc_calls then s.hidden_proc ++ [pid] else s.hidden_proc := by
  unfold do_hide_process
  split <;> simp_all

theorem filter_ne_append_self (l : List Int) (a : Int) (hn : a ∉ l) :
    (l ++ [a]).filter (fun x => decide (x ≠ a)) = l := by
  have h1 : l.filter (fun x => decide (x ≠ a)) = l := by
    rw [← unhide_walk_fst]; exact unhide_walk_of_not_mem a l hn
  rw [List.filter_append, h1]
  simp [List.filter_cons]

theorem filter_ne_self (l : List Int) (a : Int) (hn : a ∉ l) :
    l.filter (fun x => decide (x ≠ a)) = l := by
  rw [← unhide_walk_fst]; exact unhide_walk_of_not_mem a l hn

/-- Registry left by `hide_process N` followed by `unhide_process N`. -/
theorem roundtrip_list (h : Host) (N : Int) (s : State)
    (hN : N ∉ s.hidden_proc)
    (hP : get_parent_pid h N ≠ 0 → get_parent_pid h N ∉ s.hidden_proc) :
    (unhide_process h N (hide_process h N s).2).2.hidden_proc = s.hidden_proc := by
  rw [unhide_process_list]
  have key : ∀ l : List Int,
      (l = s.hidden_proc ∨ l = s.hidden_proc ++ [N] ∨
        (get_parent_pid h N ≠ 0 ∧ l = s.hidden_proc ++ [N, get_parent_pid h N])) →
      (if get_parent_pid h N = 0 then l.filter (fun x => decide (x ≠ N))
       else (l.filter (fun x => decide (x ≠ N))).filter
         (fun x => decide (x ≠ get_parent_pid h N))) = s.hidden_proc := by
    intro l hl
    have e0 : s.hidden_proc.filter (fun x => decide (x ≠ N)) = s.hidden_proc :=
      filter_ne_self _ _ hN
    have e1 : (s.hidden_proc ++ [N]).filter (fun x => decide (x ≠ N)) = s.hidden_proc :=
      filter_ne_append_self _ _ hN
    by_cases hp : get_parent_pid h N = 0
    · rw [if_pos hp]
      rcases hl with rfl | rfl | ⟨hne, _⟩
      · exact e0
      · exact e1
      · exact absurd hp hne
    · rw [if_neg hp]
      have e2 : s.hidden_proc.filter (fun x => decide (x ≠ get_parent_pid h N)) =
          s.hidden_proc := filter_ne_self _ _ (hP hp)
      rcases hl with rfl | rfl | ⟨_, rfl⟩
      · rw [e0, e2]
      · rw [e1, e2]
      · have e3 : (s.hidden_proc ++ [N, get_parent_pid h N]).filter
            (fun x => decide (x ≠ N)) =
            s.hidden_proc ++ [get_parent_pid h N].filter (fun x => decide (x ≠ N)) := by
          rw [List.filter_append, e0]
          simp [List.filter_cons]
        rw [e3, List.filter_append, e2]
        simp [List.filter_cons]
  apply key
  unfold hide_process
  by_cases hz : N = 0
  · simp [hz]
  · by_cases hk1 : h.kmalloc_ok s.kmalloc_calls = true
    · by_cases hp : get_parent_pid h N = 0
      · right; left
        simp [hz, do_hide_process, hk1, SUCCESS, note_lookup, hp]
      · by_cases hk2 : h.kmalloc_ok (s.kmalloc_calls + 1) = true
        · right; right
          simp [hz, do_hide_process, hk1, hk2, SUCCESS, note_lookup, hp]
        · right; left
          simp [hz, do_hide_process, hk1, hk2, SUCCESS, note_lookup, hp]
    · left
      simp [hz, do_hide_process, hk1, ENOMEM]

/-- C3, as stated, fails: the registry `[5]` already hides 5, which has no parent.
`hide_process 5` then `unhide_process 5` leaves the registry empty, and the enumeration
over the existing identifier 5 from 0 now yields 5, where under `[5]` it yields nothing. -/
theorem roundtrip_not_identity :
    (unhide_process host_empty 5 (hide_process host_empty 5 (state_of [5])).2).2.hidden_proc = [] ∧
    hook_find_ge_pid 4 [5]
      (unhide_process host_empty 5 (hide_process host_empty 5 (state_of [5])).2).2.hidden_proc 0
        = some (some 5) ∧
    hook_find_ge_pid 4 [5] (state_of [5]).hidden_proc 0 = some none := by
  decide

/-- C3, amended: when neither `N` nor the parent the lookup returns for it has an entry
in the registry, `hide_process N` followed by `unhide_process N` gives back the same
registry, whatever the allocations do, and so `hook_find_ge_pid` returns the same result
for every start value as before. -/
theorem roundtrip_restores (h : Host) (N : Int) (s : State) (_hN0 : N ≠ 0)
    (hN : N ∉ s.hidden_proc)
    (hP : get_parent_pid h N ≠ 0 → get_parent_pid h N ∉ s.hidden_proc) :
    (unhide_process h N (hide_process h N s).2).2.hidden_proc = s.hidden_proc ∧
    ∀ (fuel : Nat) (existing : List Int) (nr : Int),
      hook_find_ge_pid fuel existing
          (unhide_process h N (hide_process h N s).2).2.hidden_proc nr =
        hook_find_ge_pid fuel existing s.hidden_proc nr := by
  have hl := roundtrip_list h N s hN hP
  exact ⟨hl, fun fuel existing nr => by rw [hl]⟩

/-- Witness for C3 amended: hiding and unhiding 50 (parent 10) over the registry `[7]`
gives `[7]` back. -/
theorem roundtrip_restores_witness :
    (unhide_process host50 50 (hide_process host50 50 (state_of [7])).2).2.hidden_proc =
      (state_of [7]).hidden_proc :=
  (roundtrip_restores host50 50 (state_of [7]) (by decide) (by decide)
    (fun _ => by decide)).1

/-! ## Enumeration filter -/

theorem real_find_ge_pid_none (l : List Int) (nr : Int)
    (hr : real_find_ge_pid l nr = none) : ∀ q ∈ l, q < nr := by
  induction l with
  | nil => simp
  | cons x xs ih =>
    unfold real_find_ge_pid at hr
    cases hxs : real_find_ge_pid xs nr with
    | none =>
      rw [hxs] at hr
      simp only at hr
      split at hr
      · simp at hr
      · intro q hq
        rcases List.mem_cons.mp hq with rfl | hq2
        · omega
        · exact ih hxs q hq2
    | some b =>
      rw [hxs] at hr
      simp only at hr
      split at hr <;> simp at hr

theorem wrap32_le (x : Int) : wrap32 x ≤ INT_MAX := by
  unfold wrap32 INT_MAX
  omega

/-- While `INT_MAX` is an existing identifier the filter never reports not-found for an
`int` start value, with any fuel: so when every existing identifier `≥ nr` is hidden it
does not give the not-found answer. -/
theorem hook_find_ge_pid_never_not_found (existing registry : List Int) (nr : Int)
    (hm : INT_MAX ∈ existing) (hnr : nr ≤ INT_MAX) (fuel : Nat) :
    hook_find_ge_pid fuel existing registry nr ≠ some none := by
  have hsome : ∀ start : Int, start ≤ INT_MAX →
      ∃ p, real_find_ge_pid existing start = some p := by
    intro start hs
    cases hr : real_find_ge_pid existing start with
    | none =>
      have := real_find_ge_pid_none existing start hr INT_MAX hm
      omega
    | some p => exact ⟨p, rfl⟩
  unfold hook_find_ge_pid
  induction fuel generalizing nr with
  | zero =>
    obtain ⟨p, hp⟩ := hsome nr hnr
    rw [hp]
    by_cases hh : is_hidden_proc p registry = true <;> simp [hook_loop, hh]
  | succ f ih =>
    obtain ⟨p, hp⟩ := hsome nr hnr
    rw [hp]
    by_cases hh : is_hidden_proc p registry = true
    · simp only [hook_loop, hh, if_true]
      exact ih (wrap32 (p + 1)) (wrap32_le _)
    · simp [hook_loop, hh]

/-- The scenario of the specification: with registry `[50, 10]` the enumeration from 0
over the existing identifiers 10, 50, 51 skips 10 and 50 and returns 51. -/
theorem hook_find_ge_pid_scenario :
    hook_find_ge_pid 3 [10, 50, 51] (hide_process host50 50 (state_of [])).2.hidden_proc 0 =
      some (some 51) := by
  decide

/-- With `INT_MAX` existing but not hidden the filter returns it. -/
theorem hook_find_ge_pid_at_int_max :
    hook_find_ge_pid 2 [5, INT_MAX] [5] 0 = some (some INT_MAX) ∧
    hook_find_ge_pid 1 [INT_MAX] [] 0 = some (some INT_MAX) := by
  decide

/-! ## Interception engine -/

/-- C9: when the caller address lies outside the module the thunk sets the saved
instruction pointer to the descriptor's replacement function and leaves the rest of the
saved registers as they were; when it lies inside the module the saved registers are
returned unchanged, so the module's own call of the original is not redirected. -/
theorem hook_ftrace_thunk_asymmetric {ρ : Type} (within_module : Nat → Bool)
    (hook : ftrace_hook) (ip parent_ip : Nat) (regs : pt_regs ρ) :
    (within_module parent_ip = false →
      (hook_ftrace_thunk within_module hook ip parent_ip regs).ip = hook.func ∧
      (hook_ftrace_thunk within_module hook ip parent_ip regs).rest = regs.rest) ∧
    (within_module parent_ip = true →
      hook_ftrace_thunk within_module hook ip parent_ip regs = regs) := by
  constructor
  · intro hw
    simp [hook_ftrace_thunk, hw]
  · intro hw
    simp [hook_ftrace_thunk, hw]

/-- Witness for C9: a call from address 500, outside the module at 1000 to 1999, is sent
to the replacement at 4096 with the other registers kept. -/
theorem hook_ftrace_thunk_asymmetric_witness :
    (hook_ftrace_thunk within_sample hook_initial 8192 500
        ({ ip := 8192, rest := (77 : Nat) } : pt_regs Nat)).ip = hook_initial.func ∧
    (hook_ftrace_thunk within_sample hook_initial 8192 500
        ({ ip := 8192, rest := (77 : Nat) } : pt_regs Nat)).rest = 77 :=
  (hook_ftrace_thunk_asymmetric within_sample hook_initial 8192 500
    { ip := 8192, rest := (77 : Nat) }).1 (by decide)

theorem hook_install_unresolved (k : Kernel) (m : Module)
    (hk : k.kallsyms_lookup_name m.hook.name = 0) :
    (hook_install k m).1 = -ENOENT ∧ (hook_install k m).2.registered = m.registered ∧
    (hook_install k m).2.filter_ip = m.filter_ip := by
  simp [hook_install, hook_resolve_addr, hk, ENOENT]

/-- Module load reports success with the device created whenever the four transport steps
succeed, whatever `hook_install` returns. -/
theorem _hideproc_init_ignores_hook (k : Kernel) (m : Module)
    (h1 : k.alloc_chrdev_region = 0) (h2 : k.class_create = 0) (h3 : k.cdev_add = 0)
    (h4 : k.device_create = 0) :
    (_hideproc_init k m).1 = 0 ∧ (_hideproc_init k m).2.device_created = true := by
  have hd : ∀ m2 : Module, (hook_install k m2).2.device_created = m2.device_created := by
    intro m2
    by_cases c0 : k.kallsyms_lookup_name m2.hook.name = 0
    · simp [hook_install, hook_resolve_addr, c0, ENOENT]
    · by_cases c1 : k.ftrace_set_filter_ip false = 0
      · by_cases c2 : k.register_ftrace_function = 0
        · simp [hook_install, hook_resolve_addr, c0, c1, c2]
        · by_cases c3 : k.ftrace_set_filter_ip true = 0
          · simp [hook_install, hook_resolve_addr, c0, c1, c2, c3]
          · simp [hook_install, hook_resolve_addr, c0, c1, c2, c3]
      · simp [hook_install, hook_resolve_addr, c0, c1]
  simp [_hideproc_init, h1, h2, h3, h4, init_hook, hd]

/-- C7 fails on the code: in a kernel where the symbol does not resolve `hook_install`
returns `-ENOENT`, yet `_hideproc_init` returns 0 with the control-channel device created
and no redirect registered; the same happens when `register_ftrace_function` rejects the
registration. -/
theorem _hideproc_init_unresolved :
    (hook_install kernel_unresolved module_unloaded).1 = -ENOENT ∧
    (_hideproc_init kernel_unresolved module_unloaded).1 = 0 ∧
    (_hideproc_init kernel_unresolved module_unloaded).2.device_created = true ∧
    (_hideproc_init kernel_unresolved module_unloaded).2.registered = false ∧
    (hook_install kernel_rejects module_unloaded).1 = -16 ∧
    (_hideproc_init kernel_rejects module_unloaded).1 = 0 ∧
    (_hideproc_init kernel_rejects module_unloaded).2.device_created = true ∧
    (_hideproc_init kernel_rejects module_unloaded).2.registered = false := by
  decide

theorem run_trace_getLast (fs : List (Module → Module)) (m : Module) :
    (run_trace fs m).getLast? = some (fs.foldl (fun acc f => f acc) m) := by
  induction fs generalizing m with
  | nil => simp [run_trace]
  | cons f fs ih =>
    have hih := ih (f m)
    rw [run_trace]
    cases hrt : run_trace fs (f m) with
    | nil => rw [hrt] at hih; simp at hih
    | cons x xs =>
      rw [hrt] at hih
      rw [List.getLast?_cons_cons, hih]
      simp

theorem _hideproc_exit_last (k : Kernel) (m : Module) :
    (run_trace (_hideproc_exit_steps k) m).getLast? = some (_hideproc_exit k m) :=
  run_trace_getLast _ m

/-- In every teardown the state after the first statement has the registry released (all
its nodes freed) and the redirect exactly as registered as it was before teardown. -/
theorem _hideproc_exit_first_step (k : Kernel) (m : Module) :
    ∃ m1, (run_trace (_hideproc_exit_steps k) m)[1]? = some m1 ∧
      m1.registered = m.registered ∧ m1.filter_ip = m.filter_ip ∧
      m1.reg.hidden_proc = [] ∧
      m1.reg.kfree_calls = m.reg.kfree_calls + m.reg.hidden_proc.length := by
  refine ⟨{ m with reg := release_hide_list m.reg }, ?_, rfl, rfl, rfl, rfl⟩
  simp [_hideproc_exit_steps, run_trace]

/-- C8 fails on the code: unloading a module whose redirect is registered and whose
registry is `[50, 10]`, the state after the first statement of `_hideproc_exit` has both
registry nodes freed while the redirect is still registered; the redirect is only
unregistered by the second statement. -/
theorem _hideproc_exit_releases_first :
    ((run_trace (_hideproc_exit_steps kernel_ok) module_loaded)[0]?).map
        (fun m => (m.reg.hidden_proc, m.reg.kfree_calls, m.registered)) =
      some ([50, 10], 0, true) ∧
    ((run_trace (_hideproc_exit_steps kernel_ok) module_loaded)[1]?).map
        (fun m => (m.reg.hidden_proc, m.reg.kfree_calls, m.registered)) =
      some ([], 2, true) ∧
    ((run_trace (_hideproc_exit_steps kernel_ok) module_loaded)[2]?).map
        (fun m => (m.reg.hidden_proc, m.reg.kfree_calls, m.registered)) =
      some ([], 2, false) := by
  decide

/-! ## Control-channel read buffer -/

theorem dec_digits_length_le (k : Nat) :
    ∀ (fuel n : Nat), n < fuel → n < 10 ^ (k + 1) → (dec_digits fuel n).length ≤ k + 1 := by
  induction k with
  | zero =>
    intro fuel n hf hn
    cases fuel with
    | zero => omega
    | succ f =>
      have : n < 10 := by simpa using hn
      simp [dec_digits, this]
  | succ k ih =>
    intro fuel n hf hn
    cases fuel with
    | zero => omega
    | succ f =>
      by_cases h10 : n < 10
      · simp [dec_digits, h10]
      · have h1 : n / 10 < f := by omega
        have h2 : n / 10 < 10 ^ (k + 1) := by
          have : 10 ^ (k + 1 + 1) = 10 * 10 ^ (k + 1) := by ring
          omega
        have := ih f (n / 10) h1 h2
        simp [dec_digits, h10]
        omega

theorem dec_digits_length_ge (k : Nat) :
    ∀ (fuel n : Nat), n < fuel → 10 ^ k ≤ n → k + 1 ≤ (dec_digits fuel n).length := by
  induction k with
  | zero =>
    intro fuel n hf _
    cases fuel with
    | zero => omega
    | succ f =>
      by_cases h10 : n < 10
      · simp [dec_digits, h10]
      · simp [dec_digits, h10]
  | succ k ih =>
    intro fuel n hf hn
    cases fuel with
    | zero => omega
    | succ f =>
      have hpos : 1 ≤ 10 ^ k := Nat.one_le_pow _ _ (by norm_num)
      have hexp : 10 ^ (k + 1) = 10 * 10 ^ k := by ring
      have h10 : ¬ n < 10 := by omega
      have h1 : n / 10 < f := by omega
      have h2 : 10 ^ k ≤ n / 10 := by omega
      have := ih f (n / 10) h1 h2
      simp [dec_digits, h10]
      omega

theorem message_bytes_eq (id : Int) : message_bytes id = (fmt_d id).length + 7 := by
  simp [message_bytes, OUTPUT_BUFFER_FORMAT, sprintf_d]

/-- The formatted entry fits the buffer exactly for identifiers from -99999 to 999999. -/
theorem message_fits_iff (id : Int) :
    message_bytes id ≤ MAX_MESSAGE_SIZE ↔ -99999 ≤ id ∧ id ≤ 999999 := by
  have hmax : MAX_MESSAGE_SIZE = 13 := by decide
  rw [message_bytes_eq, hmax]
  by_cases hneg : id < 0
  · have hlen : (fmt_d id).length = (dec_digits (id.natAbs + 1) id.natAbs).length + 1 := by
      simp [fmt_d, hneg]
    rw [hlen]
    constructor
    · intro hfit
      by_contra hcon
      have hbig : 10 ^ 5 ≤ id.natAbs := by omega
      have := dec_digits_length_ge 5 (id.natAbs + 1) id.natAbs (by omega) hbig
      omega
    · intro hr
      have hsmall : id.natAbs < 10 ^ (4 + 1) := by omega
      have := dec_digits_length_le 4 (id.natAbs + 1) id.natAbs (by omega) hsmall
      omega
  · have hlen : (fmt_d id).length = (dec_digits (id.natAbs + 1) id.natAbs).length := by
      simp [fmt_d, hneg]
    rw [hlen]
    constructor
    · intro hfit
      by_contra hcon
      have hbig : 10 ^ 6 ≤ id.natAbs := by omega
      have := dec_digits_length_ge 6 (id.natAbs + 1) id.natAbs (by omega) hbig
      omega
    · intro hr
      have hsmall : id.natAbs < 10 ^ (5 + 1) := by omega
      have := dec_digits_length_le 5 (id.natAbs + 1) id.natAbs (by omega) hsmall
      omega

/-- C10 fails on the code: 1234567 is a non-zero 32-bit `pid_t` value, `hide_process`
places it in the registry, and the text `device_read` formats for it takes 14 bytes with
its NUL, one more than the 13 bytes of `MAX_MESSAGE_SIZE`; for `INT_MIN` it takes 18. -/
theorem message_overflows :
    MAX_MESSAGE_SIZE = 13 ∧
    (INT_MIN ≤ 1234567 ∧ (1234567 : Int) ≤ INT_MAX ∧ (1234567 : Int) ≠ 0) ∧
    (hide_process host_empty 1234567 (state_of [])).2.hidden_proc = [1234567] ∧
    sprintf_d OUTPUT_BUFFER_FORMAT 1234567 =
      ['p', 'i', 'd', ':', ' ', '1', '2', '3', '4', '5', '6', '7', '\n'] ∧
    message_bytes 1234567 = 14 ∧
    ¬ message_bytes 1234567 ≤ MAX_MESSAGE_SIZE ∧
    message_bytes INT_MIN = 18 := by
  decide

end Hideproc
